import Mathlib

/-!
Verification of the WGS-84 geodesy module `geoparams.py`.

The module consists of three pure functions over fixed WGS-84 constants:
`geo_param` (local radii of curvature, local gravity, sine/cosine of
latitude, Earth rotation rate), `earth_radius` (radii only), and
`lla2xyz` (geodetic to Earth-centered Cartesian coordinates).  The
Python floating-point arithmetic is embedded as exact real arithmetic:
every arithmetic operation, `math.sqrt`, `math.sin` and `math.cos` of
the source are mapped to their counterparts on `ℝ`.
-/

namespace GeoParams

noncomputable section

open Real

/-- `GM = 3.986004418e14`, gravitational parameter, m³/s². -/
def GM : ℝ := 3.986004418e14

/-- `Re = 6378137`, equatorial radius, m. -/
def Re : ℝ := 6378137

/-- `FLATTENING = 0.00335281066475`, Earth flattening `f = (a-b)/a`. -/
def FLATTENING : ℝ := 0.00335281066475

/-- `ECCENTRICITY = 0.0818191908426215`, Earth eccentricity. -/
def ECCENTRICITY : ℝ := 0.0818191908426215

/-- `E_SQR = 0.00669437999014`, squared eccentricity. -/
def E_SQR : ℝ := 0.00669437999014

/-- `W_IE = 7292115e-11`, Earth rotation rate, rad/s. -/
def W_IE : ℝ := 7292115e-11

/-- `geo_param(pos)`: local meridian radius `rm`, normal radius `rn`,
gravity `g`, `sin(lat)`, `cos(lat)` and the Earth rotation rate, for
`pos = (lat, lon, alt)`.  Mirrors the body of `geo_param` in
`geoparams.py` line by line. -/
def geo_param (pos : ℝ × ℝ × ℝ) : ℝ × ℝ × ℝ × ℝ × ℝ × ℝ :=
  let normal_gravity : ℝ := 9.7803253359
  let k : ℝ := 0.00193185265241
  let m : ℝ := 0.00344978650684
  let sl := Real.sin pos.1
  let cl := Real.cos pos.1
  let sl_sqr := sl * sl
  let h := pos.2.2
  let rm := (Re * (1 - E_SQR)) / (Real.sqrt (1.0 - E_SQR * sl_sqr) * (1.0 - E_SQR * sl_sqr))
  let rn := Re / (Real.sqrt (1.0 - E_SQR * sl_sqr))
  let g1 := normal_gravity * (1 + k * sl_sqr) / Real.sqrt (1.0 - E_SQR * sl_sqr)
  let g := g1 * (1.0 - (2.0 / Re) * (1.0 + FLATTENING + m - 2.0 * FLATTENING * sl_sqr) * h
      + 3.0 * h * h / Re / Re)
  (rm, rn, g, sl, cl, W_IE)

/-- `earth_radius(lat)`: meridian radius `rm` and normal radius `rn`.
Mirrors the body of `earth_radius` in `geoparams.py`. -/
def earth_radius (lat : ℝ) : ℝ × ℝ :=
  let sl := Real.sin lat
  let sl_sqr := sl * sl
  let rm := (Re * (1 - E_SQR)) / (Real.sqrt (1.0 - E_SQR * sl_sqr) * (1.0 - E_SQR * sl_sqr))
  let rn := Re / (Real.sqrt (1.0 - E_SQR * sl_sqr))
  (rm, rn)

/-- `lla2xyz(lla)`: geodetic `(lat, lon, alt)` to Earth-centered
Cartesian `(x, y, z)`.  Mirrors the body of `lla2xyz` in `geoparams.py`. -/
def lla2xyz (lla : ℝ × ℝ × ℝ) : ℝ × ℝ × ℝ :=
  let sl := Real.sin lla.1
  let cl := Real.cos lla.1
  let sl_sqr := sl * sl
  let r := Re / Real.sqrt (1.0 - E_SQR * sl_sqr)
  let rho := (r + lla.2.2) * cl
  let x := rho * Real.cos lla.2.1
  let y := rho * Real.sin lla.2.1
  let z := (r * (1.0 - E_SQR) + lla.2.2) * sl
  (x, y, z)

/-- For every real latitude, `sin² lat ≤ 1`, `E_SQR < 1`, hence the
common radicand `1 − E_SQR · sin² lat` is strictly positive. -/
lemma radicand_pos (lat : ℝ) : 0 < 1 - E_SQR * (Real.sin lat * Real.sin lat) := by
  have hs : Real.sin lat * Real.sin lat ≤ 1 := by
    have h1 := Real.sin_sq_add_cos_sq lat
    have h2 := sq_nonneg (Real.cos lat)
    nlinarith [sq_nonneg (Real.sin lat)]
  have he : (0 : ℝ) ≤ E_SQR := by norm_num [E_SQR]
  have : E_SQR * (Real.sin lat * Real.sin lat) ≤ E_SQR * 1 :=
    mul_le_mul_of_nonneg_left hs he
  have he1 : E_SQR < 1 := by norm_num [E_SQR]
  linarith

/-- The square root of the common radicand is strictly positive. -/
lemma sqrt_radicand_pos (lat : ℝ) :
    0 < Real.sqrt (1 - E_SQR * (Real.sin lat * Real.sin lat)) :=
  Real.sqrt_pos.mpr (radicand_pos lat)

/-- For positive `x`, `sqrt x · x = x^(3/2)` (real power). -/
lemma sqrt_mul_self_eq_rpow (x : ℝ) (hx : 0 < x) :
    Real.sqrt x * x = x ^ ((3 : ℝ) / 2) := by
  rw [Real.sqrt_eq_rpow]
  rw [show ((3 : ℝ) / 2) = 1 / 2 + 1 by norm_num, Real.rpow_add hx, Real.rpow_one]

end

/-- C1: for every real latitude, `geo_param` returns
`rm = Re·(1−e²)/(1−e²·sin²lat)^(3/2)` and
`rn = Re/sqrt(1−e²·sin²lat)` as its first two components: the code's
denominator `sqrt(1−e²·sin²lat)·(1−e²·sin²lat)` equals `(1−e²·sin²lat)^(3/2)`. -/
theorem geo_param_rm_rn_closed_form (lat lon alt : ℝ) :
    (geo_param (lat, lon, alt)).1
      = Re * (1 - E_SQR) / (1 - E_SQR * (Real.sin lat * Real.sin lat)) ^ ((3 : ℝ) / 2)
    ∧ (geo_param (lat, lon, alt)).2.1
      = Re / Real.sqrt (1 - E_SQR * (Real.sin lat * Real.sin lat)) := by
  constructor
  · show Re * (1 - E_SQR) /
        (Real.sqrt (1.0 - E_SQR * (Real.sin lat * Real.sin lat))
          * (1.0 - E_SQR * (Real.sin lat * Real.sin lat))) = _
    rw [show (1.0 : ℝ) = 1 from by norm_num]
    rw [sqrt_mul_self_eq_rpow _ (radicand_pos lat)]
  · show Re / Real.sqrt (1.0 - E_SQR * (Real.sin lat * Real.sin lat)) = _
    rw [show (1.0 : ℝ) = 1 from by norm_num]

/-- C2: for every real latitude, `earth_radius lat` equals the pair of
the first two components of `geo_param (lat, 0, 0)` — the `rm`, `rn`
formulas are the same in both functions. -/
theorem earth_radius_eq_geo_param (lat : ℝ) :
    earth_radius lat = ((geo_param (lat, 0, 0)).1, (geo_param (lat, 0, 0)).2.1) := rfl

/-- C4: the gravity component returned by `geo_param ((0, lon, 0))` is
exactly `g0 = 9.7803253359`: at `lat = 0`, `alt = 0` the `sin²(lat)`
correction and both altitude-correction terms vanish. -/
theorem geo_param_gravity_at_equator (lon : ℝ) :
    (geo_param (0, lon, 0)).2.2.1 = 9.7803253359 := by
  simp only [geo_param, Real.sin_zero, mul_zero, zero_mul, sub_zero]
  norm_num [Real.sqrt_one]

/-- C5: `lla2xyz ((0, 0, 0))` returns exactly `(Re, 0, 0)` with
`Re = 6378137`. -/
theorem lla2xyz_at_origin : lla2xyz (0, 0, 0) = (Re, 0, 0) := by
  simp only [lla2xyz, Real.sin_zero, Real.cos_zero, mul_zero, zero_mul, sub_zero,
    add_zero, mul_one]
  norm_num [Real.sqrt_one]

/-- C6: at `lat = π/2` (where `sin² lat = 1`), the `rm` and `rn`
returned by `earth_radius` and by `geo_param` all equal
`Re / sqrt (1 − e²)`, the polar radius of curvature. -/
theorem polar_radii_equal (lon alt : ℝ) :
    (earth_radius (Real.pi / 2)).1 = Re / Real.sqrt (1 - E_SQR)
    ∧ (earth_radius (Real.pi / 2)).2 = Re / Real.sqrt (1 - E_SQR)
    ∧ (geo_param (Real.pi / 2, lon, alt)).1 = Re / Real.sqrt (1 - E_SQR)
    ∧ (geo_param (Real.pi / 2, lon, alt)).2.1 = Re / Real.sqrt (1 - E_SQR) := by
  have h1 : (1 - E_SQR : ℝ) ≠ 0 := by norm_num [E_SQR]
  simp only [earth_radius, geo_param, Real.sin_pi_div_two, mul_one, one_mul]
  norm_num
  rw [mul_div_mul_right _ _ h1]

/-- C7: for every real latitude, the radicand `1 − E_SQR · sin² lat` is
strictly positive, hence its square root is positive and the
denominators appearing in `geo_param`, `earth_radius`, `lla2xyz` are
nonzero with nonnegative square-root operands. -/
theorem radicand_always_safe (lat : ℝ) :
    0 < 1 - E_SQR * (Real.sin lat * Real.sin lat)
    ∧ 0 < Real.sqrt (1 - E_SQR * (Real.sin lat * Real.sin lat))
    ∧ Real.sqrt (1 - E_SQR * (Real.sin lat * Real.sin lat))
        * (1 - E_SQR * (Real.sin lat * Real.sin lat)) ≠ 0 :=
  ⟨radicand_pos lat, sqrt_radicand_pos lat,
    mul_ne_zero (ne_of_gt (sqrt_radicand_pos lat)) (ne_of_gt (radicand_pos lat))⟩

/-- C10: every component of `geo_param` is independent of the longitude
entry of its input (the function reads only `pos[0]` and `pos[2]`), and
its last component is always the constant `W_IE`. -/
theorem geo_param_lon_independent :
    (∀ lat alt lon1 lon2 : ℝ, geo_param (lat, lon1, alt) = geo_param (lat, lon2, alt))
    ∧ ∀ pos : ℝ × ℝ × ℝ, (geo_param pos).2.2.2.2.2 = W_IE :=
  ⟨fun _ _ _ _ => rfl, fun _ => rfl⟩

/-- C3 counterexample: the gravity returned by `geo_param` at the pole
is `g0·(1+k)/sqrt(1−e²)`, which differs from `g0·(1+k)`: the claimed
equality fails at `lat = π/2, lon = 0, alt = 0`. -/
theorem polar_gravity_ne_claimed_form :
    (geo_param (Real.pi / 2, 0, 0)).2.2.1 ≠ 9.7803253359 * (1 + 0.00193185265241) := by
  have hv : (0 : ℝ) < 1 - E_SQR := by norm_num [E_SQR]
  have hs0 : 0 < Real.sqrt (1 - E_SQR) := Real.sqrt_pos.mpr hv
  have hs1 : Real.sqrt (1 - E_SQR) < 1 := by
    rw [Real.sqrt_lt' one_pos]
    norm_num [E_SQR]
  simp only [geo_param, Real.sin_pi_div_two, mul_one, one_mul, mul_zero, zero_mul]
  norm_num
  intro h
  rw [div_eq_iff (ne_of_gt hs0)] at h
  nlinarith [hs0, hs1]

/-- C3 amended: the gravity component returned by
`geo_param ((π/2, lon, 0))` equals `g0·(1+k)/sqrt(1−e²)` with
`g0 = 9.7803253359`, `k = 0.00193185265241`, and that value is within
`1e-6` of `9.8321849378`. -/
theorem polar_gravity_value (lon : ℝ) :
    (geo_param (Real.pi / 2, lon, 0)).2.2.1
      = 9.7803253359 * (1 + 0.00193185265241) / Real.sqrt (1 - E_SQR)
    ∧ |9.7803253359 * (1 + 0.00193185265241) / Real.sqrt (1 - E_SQR) - 9.8321849378|
        < 1e-6 := by
  have hv : (0 : ℝ) < 1 - E_SQR := by norm_num [E_SQR]
  have hs0 : 0 < Real.sqrt (1 - E_SQR) := Real.sqrt_pos.mpr hv
  have ha : (0.99664718 : ℝ) < Real.sqrt (1 - E_SQR) := by
    rw [Real.lt_sqrt (by norm_num)]
    norm_num [E_SQR]
  have hb : Real.sqrt (1 - E_SQR) < 0.99664719 := by
    rw [Real.sqrt_lt' (by norm_num)]
    norm_num [E_SQR]
  constructor
  · simp only [geo_param, Real.sin_pi_div_two, mul_one, one_mul, mul_zero, zero_mul]
    norm_num
  · have h1 : 9.7803253359 * (1 + 0.00193185265241) / Real.sqrt (1 - E_SQR)
        < 9.8321849378 + 1e-6 := by
      rw [div_lt_iff₀ hs0]
      nlinarith [ha]
    have h2 : (9.8321849378 - 1e-6 : ℝ)
        < 9.7803253359 * (1 + 0.00193185265241) / Real.sqrt (1 - E_SQR) := by
      rw [lt_div_iff₀ hs0]
      nlinarith [hb]
    rw [abs_lt]
    constructor <;> linarith

/-- C8 counterexample: the module constants do not satisfy the exact
identities `E_SQR = 2·FLATTENING − FLATTENING²` and
`ECCENTRICITY² = E_SQR`: the decimal literals are truncations, so the
conjunction of exact equalities is false. -/
theorem eccentricity_consistency_not_exact :
    ¬(E_SQR = 2 * FLATTENING - FLATTENING ^ 2 ∧ ECCENTRICITY ^ 2 = E_SQR) := by
  intro h
  have h1 := h.1
  norm_num [E_SQR, FLATTENING] at h1

/-- C8 amended: the consistency invariant `e² = 2f − f²` holds up to
the truncation error of the decimal literals: `E_SQR` is within `1e-14`
of `2·FLATTENING − FLATTENING²`, and `ECCENTRICITY²` is within `1e-14`
of `E_SQR`. -/
theorem eccentricity_consistency_approx :
    |E_SQR - (2 * FLATTENING - FLATTENING ^ 2)| < 1e-14
    ∧ |ECCENTRICITY ^ 2 - E_SQR| < 1e-14 := by
  constructor
  · rw [abs_lt]
    constructor <;> norm_num [E_SQR, FLATTENING]
  · rw [abs_lt]
    constructor <;> norm_num [E_SQR, ECCENTRICITY]

/-- Norm of the equatorial-plane projection of `(A·clon, A·slon)` with
`A = (r+0)·cl`, divided by `cl`, recovers `r`, for `clon² + slon² = 1`. -/
lemma proj_norm_div_cos (r cl clon slon : ℝ) (hr : 0 ≤ r) (hcl : 0 < cl)
    (h : clon ^ 2 + slon ^ 2 = 1) :
    Real.sqrt (((r + 0) * cl * clon) ^ 2 + ((r + 0) * cl * slon) ^ 2) / cl = r := by
  have h1 : ((r + 0) * cl * clon) ^ 2 + ((r + 0) * cl * slon) ^ 2
      = ((r + 0) * cl) ^ 2 := by
    have h2 : ((r + 0) * cl * clon) ^ 2 + ((r + 0) * cl * slon) ^ 2
        = ((r + 0) * cl) ^ 2 * (clon ^ 2 + slon ^ 2) := by ring
    rw [h2, h, mul_one]
  rw [h1, Real.sqrt_sq (by positivity), mul_div_cancel_right₀ _ (ne_of_gt hcl), add_zero]

/-- C9: for `lat` in `(−π/2, π/2)` and any `lon`, the norm of the
equatorial-plane projection of `lla2xyz ((lat, lon, 0))`, divided by
`cos lat`, equals the `rn` component of `earth_radius lat`. -/
theorem lla2xyz_projection_recovers_rn (lat lon : ℝ)
    (h1 : -(Real.pi / 2) < lat) (h2 : lat < Real.pi / 2) :
    Real.sqrt ((lla2xyz (lat, lon, 0)).1 ^ 2 + (lla2xyz (lat, lon, 0)).2.1 ^ 2)
      / Real.cos lat = (earth_radius lat).2 := by
  have hcl : 0 < Real.cos lat := Real.cos_pos_of_mem_Ioo ⟨h1, h2⟩
  have hr : 0 ≤ Re / Real.sqrt (1.0 - E_SQR * (Real.sin lat * Real.sin lat)) :=
    div_nonneg (by norm_num [Re]) (Real.sqrt_nonneg _)
  exact proj_norm_div_cos _ _ _ _ hr hcl (Real.cos_sq_add_sin_sq lon)

/-- C9 witness: the projection property instantiated at
`lat = 0, lon = 0`. -/
theorem lla2xyz_projection_recovers_rn_witness :
    Real.sqrt ((lla2xyz (0, 0, 0)).1 ^ 2 + (lla2xyz (0, 0, 0)).2.1 ^ 2)
      / Real.cos 0 = (earth_radius 0).2 :=
  lla2xyz_projection_recovers_rn 0 0 (by linarith [Real.pi_pos]) (by linarith [Real.pi_pos])

end GeoParams
